import Mathlib

/-
Verification of the database bootstrap script `dev/init_db.py`.

The script is embedded shallowly: the PostgreSQL server is modelled as an
abstract state (whether the administrative connection attempt succeeds, the
list of existing database names, and whether the administrative role may
create databases).  The script becomes a pure function from a server state
to the trace of actions it performs (console prints, connection handling,
statements executed), its outcome (normal return, `sys.exit` with a code,
or an unhandled exception), and the resulting server state.
-/

namespace Idem

/- Fixed configuration constants, lines 6-10 of the source. -/

def DB_HOST : String := "localhost"

def DB_PORT : String := "5432"

def DB_USER : String := "postgres"

def DB_PASSWORD : String := "password"

def TARGET_DB : String := "idem_test"

/-- Abstract server state: whether the administrative connection attempt at
lines 17-25 succeeds, which databases exist on the server, and whether the
administrative role has permission to create a database (the only cause of
failure of `CREATE DATABASE` once the name is known to be absent). -/
structure ServerState where
  reachable : Bool
  dbs : List String
  canCreate : Bool
deriving Repr, DecidableEq

/-- Observable actions of one run of the script. -/
inductive Event where
  | print (msg : String)
  | connect
  | setAutocommit
  | openCursor
  | execute (sql : String)
  | fetchone
  | closeCursor
  | closeConn
deriving Repr, DecidableEq

/-- Exceptions visible in the script: a missing `psycopg2` module, or a
database error raised by the driver (e.g. `insufficient_privilege`). -/
inductive Exc where
  | importError
  | dbError (msg : String)
deriving Repr, DecidableEq

/-- How a piece of the program terminates: returning normally, calling
`sys.exit` with a code, or propagating an exception. -/
inductive Outcome where
  | normalReturn
  | sysExit (code : Nat)
  | exception (e : Exc)
deriving Repr, DecidableEq

/-- Result of running the script against a server state. -/
structure RunResult where
  trace : List Event
  outcome : Outcome
  server : ServerState
deriving Repr, DecidableEq

/- The two SQL statements of the script, lines 32 and 37. -/

def existsSQL : String :=
  "SELECT 1 FROM pg_catalog.pg_database WHERE datname = \x27" ++ TARGET_DB ++ "\x27"

def createSQL : String := "CREATE DATABASE " ++ TARGET_DB

/- Console messages of the script. -/

def connectingMsg : String :=
  "Connecting to PostgreSQL at " ++ DB_HOST ++ ":" ++ DB_PORT ++ "..."

def connExcText : String := "could not connect to server"

def connErrorMsg (e : String) : String := "Error connecting to Postgres: " ++ e

def tipMsg : String := "Tip: Ensure docker container is running (docker-compose up -d)"

def notExistMsg : String :=
  "Database \x27" ++ TARGET_DB ++ "\x27 does not exist. Creating..."

def createdMsg : String :=
  "Database \x27" ++ TARGET_DB ++ "\x27 created successfully."

def alreadyMsg : String :=
  "Database \x27" ++ TARGET_DB ++ "\x27 already exists."

def doneMsg : String := "Done."

def installMsg1 : String := "Error: \x27psycopg2\x27 module not found."

def installMsg2 : String := "Please install it using: pip install psycopg2-binary"

def createFailText : String := "insufficient_privilege"

/-- Server semantics of the catalog existence query at line 32 followed by
`fetchone` at line 33: one row when a database of that name exists, no row
otherwise. -/
def existsQuery (s : ServerState) (name : String) : Option Nat :=
  if name ∈ s.dbs then some 1 else none

/-- Server semantics of `CREATE DATABASE`: fails on a duplicate name or a
missing privilege, otherwise adds the database. -/
def createDatabase (s : ServerState) (name : String) : Option ServerState :=
  if name ∈ s.dbs then none
  else if s.canCreate then some { s with dbs := name :: s.dbs }
  else none

/-- The `init_db` routine, lines 12-48 of the source.  It prints the banner,
attempts the administrative connection (on failure printing the diagnostic
and the docker tip and calling `sys.exit(1)`), switches the connection to
autocommit, opens a cursor, runs the existence query, conditionally issues
`CREATE DATABASE`, closes cursor and connection, and prints `Done.`.  A
failing creation statement propagates as an exception: lines 42-43 are not
in a `finally` block, so they are skipped on that path. -/
def init_db (s : ServerState) : RunResult :=
  if s.reachable then
    let checkT : List Event :=
      [Event.print connectingMsg, Event.connect, Event.setAutocommit,
       Event.openCursor, Event.execute existsSQL, Event.fetchone]
    match existsQuery s TARGET_DB with
    | some _ =>
        { trace := checkT ++ [Event.print alreadyMsg, Event.closeCursor,
                              Event.closeConn, Event.print doneMsg],
          outcome := Outcome.normalReturn, server := s }
    | none =>
        match createDatabase s TARGET_DB with
        | some s2 =>
            { trace := checkT ++ [Event.print notExistMsg, Event.execute createSQL,
                                  Event.print createdMsg, Event.closeCursor,
                                  Event.closeConn, Event.print doneMsg],
              outcome := Outcome.normalReturn, server := s2 }
        | none =>
            { trace := checkT ++ [Event.print notExistMsg, Event.execute createSQL],
              outcome := Outcome.exception (Exc.dbError createFailText), server := s }
  else
    { trace := [Event.print connectingMsg, Event.print (connErrorMsg connExcText),
                Event.print tipMsg],
      outcome := Outcome.sysExit 1, server := s }

/-- The `__main__` block, lines 50-55: call `init_db` inside
`try ... except ImportError`, printing install guidance if an `ImportError`
escapes `init_db`.  A normal return of `init_db`, or of the handler, ends
the interpreter with exit status 0; any other exception propagates. -/
def mainBody (s : ServerState) : RunResult :=
  let r := init_db s
  match r.outcome with
  | Outcome.exception Exc.importError =>
      { trace := r.trace ++ [Event.print installMsg1, Event.print installMsg2],
        outcome := Outcome.sysExit 0, server := r.server }
  | Outcome.normalReturn => { r with outcome := Outcome.sysExit 0 }
  | _ => r

/-- Running the module: Python executes the top-level `import psycopg2` at
line 1 before anything else, so when the driver is absent the `ImportError`
is raised outside the `try` block of `__main__` and propagates unhandled,
with nothing printed. -/
def runModule (driverPresent : Bool) (s : ServerState) : RunResult :=
  if driverPresent then mainBody s
  else { trace := [], outcome := Outcome.exception Exc.importError, server := s }

/-- Number of occurrences of an event in a trace. -/
def countEv (e : Event) : List Event → Nat
  | [] => 0
  | x :: rest => (if x = e then 1 else 0) + countEv e rest

/-- Holds (returns `true`) when no `execute` event occurs before the first
`setAutocommit` event of the trace. -/
def noExecBeforeAutocommit : List Event → Bool
  | [] => true
  | Event.execute _ :: _ => false
  | Event.setAutocommit :: _ => true
  | _ :: rest => noExecBeforeAutocommit rest

/- Helper facts shared by several proofs. -/

lemma exists_ne_create_sql : existsSQL ≠ createSQL := by decide

lemma create_ne_exists_sql : createSQL ≠ existsSQL := by decide

/-- Claim C2: if `init_db` returns normally, a database with the configured
target name exists on the server afterwards (the server semantics of the
existence query and the creation statement are those of `existsQuery` and
`createDatabase`). -/
theorem c2_exists_after_success (s : ServerState)
    (h : (init_db s).outcome = Outcome.normalReturn) :
    TARGET_DB ∈ (init_db s).server.dbs := by
  rcases s with ⟨r, dbs, c⟩
  cases r
  · simp [init_db] at h
  · by_cases hm : TARGET_DB ∈ dbs
    · simp [init_db, existsQuery, hm]
    · cases c
      · simp [init_db, existsQuery, createDatabase, hm] at h
      · simp [init_db, existsQuery, createDatabase, hm]

/-- Witness for C2 at a fresh reachable server. -/
theorem c2_witness :
    TARGET_DB ∈ (init_db ⟨true, [], true⟩).server.dbs :=
  c2_exists_after_success ⟨true, [], true⟩ (by decide)

/-- Claim C1: whenever the target database already exists, `init_db` issues
no creation statement; consequently two successive runs against a fresh
server (reachable, target absent, creation permitted) perform exactly one
creation in the first run, none in the second, and the second run reports
that the database already exists. -/
theorem c1_idempotent :
    (∀ s : ServerState, TARGET_DB ∈ s.dbs →
        Event.execute createSQL ∉ (init_db s).trace) ∧
    (∀ s : ServerState, s.reachable = true → TARGET_DB ∉ s.dbs → s.canCreate = true →
        countEv (Event.execute createSQL) (init_db s).trace = 1 ∧
        countEv (Event.execute createSQL) (init_db (init_db s).server).trace = 0 ∧
        Event.print alreadyMsg ∈ (init_db (init_db s).server).trace ∧
        (init_db (init_db s).server).server = (init_db s).server) := by
  constructor
  · intro s hm
    rcases s with ⟨r, dbs, c⟩
    cases r
    · simp [init_db]
    · simp [init_db, existsQuery, hm, create_ne_exists_sql]
  · intro s hr hm hc
    rcases s with ⟨r, dbs, c⟩
    simp only at hr hc
    subst hr hc
    simp [init_db, existsQuery, createDatabase, hm, countEv,
          create_ne_exists_sql, exists_ne_create_sql]

/-- Witness for C1 at a server that already has the target database and at a
fresh server. -/
theorem c1_witness :
    Event.execute createSQL ∉ (init_db ⟨true, ["idem_test"], true⟩).trace ∧
    countEv (Event.execute createSQL) (init_db ⟨true, [], true⟩).trace = 1 ∧
    Event.print alreadyMsg ∈ (init_db (init_db ⟨true, [], true⟩).server).trace :=
  ⟨c1_idempotent.1 ⟨true, ["idem_test"], true⟩ (by decide),
   (c1_idempotent.2 ⟨true, [], true⟩ rfl (by decide) rfl).1,
   (c1_idempotent.2 ⟨true, [], true⟩ rfl (by decide) rfl).2.2.1⟩

/-- Claim C5 counterexample: at a reachable server where the target database
is absent and the creation statement fails (no create privilege), `init_db`
reaches the check/create step and issues the creation statement, yet neither
the cursor nor the connection is ever closed on that exit path — lines 42-43
of the source are not protected by `try`/`finally`. -/
theorem c5_counterexample :
    Event.execute createSQL ∈ (init_db ⟨true, [], false⟩).trace ∧
    Event.closeCursor ∉ (init_db ⟨true, [], false⟩).trace ∧
    Event.closeConn ∉ (init_db ⟨true, [], false⟩).trace := by decide

/-- Claim C5 (amended): on every exit path of `init_db` that completes the
check/create step without error — i.e. on every normal return — the cursor
and the connection are closed before the routine terminates; when the
creation statement itself fails, the exception propagates without the
connection being released. -/
theorem c5_release_on_normal_return (s : ServerState)
    (h : (init_db s).outcome = Outcome.normalReturn) :
    Event.closeCursor ∈ (init_db s).trace ∧
    Event.closeConn ∈ (init_db s).trace := by
  rcases s with ⟨r, dbs, c⟩
  cases r
  · simp [init_db] at h
  · by_cases hm : TARGET_DB ∈ dbs
    · simp [init_db, existsQuery, hm]
    · cases c
      · simp [init_db, existsQuery, createDatabase, hm] at h
      · simp [init_db, existsQuery, createDatabase, hm]

/-- Witness for the amended C5 at a fresh reachable server. -/
theorem c5_witness :
    Event.closeCursor ∈ (init_db ⟨true, [], true⟩).trace ∧
    Event.closeConn ∈ (init_db ⟨true, [], true⟩).trace :=
  c5_release_on_normal_return ⟨true, [], true⟩ (by decide)

/-- Claim C6: in every run of `init_db`, no statement is executed before the
connection has been switched to autocommit mode; in particular the creation
statement always runs on a connection already in autocommit mode. -/
theorem c6_autocommit_before_statements (s : ServerState) :
    noExecBeforeAutocommit (init_db s).trace = true := by
  rcases s with ⟨r, dbs, c⟩
  cases r
  · simp [init_db, noExecBeforeAutocommit]
  · by_cases hm : TARGET_DB ∈ dbs
    · simp [init_db, existsQuery, hm, noExecBeforeAutocommit]
    · cases c <;>
        simp [init_db, existsQuery, createDatabase, hm, noExecBeforeAutocommit]

/-- Claim C7: on a reachable server, `init_db` issues the creation statement
iff the catalog existence query returns no row; when the row is absent and
the server honors the creation it reports success, and when the row is
present it issues no creation statement and reports that the database
already exists. -/
theorem c7_create_iff_absent (s : ServerState) (h : s.reachable = true) :
    (Event.execute createSQL ∈ (init_db s).trace ↔
        existsQuery s TARGET_DB = none) ∧
    (existsQuery s TARGET_DB = none → s.canCreate = true →
        Event.print createdMsg ∈ (init_db s).trace) ∧
    (∀ r : Nat, existsQuery s TARGET_DB = some r →
        Event.execute createSQL ∉ (init_db s).trace ∧
        Event.print alreadyMsg ∈ (init_db s).trace) := by
  rcases s with ⟨r, dbs, c⟩
  simp only at h
  subst h
  by_cases hm : TARGET_DB ∈ dbs
  · simp [init_db, existsQuery, hm, create_ne_exists_sql]
  · cases c <;>
      simp [init_db, existsQuery, createDatabase, hm, create_ne_exists_sql]

/-- Witness for C7 at a server with the target present and one with it
absent. -/
theorem c7_witness :
    Event.print alreadyMsg ∈ (init_db ⟨true, ["idem_test"], true⟩).trace ∧
    Event.print createdMsg ∈ (init_db ⟨true, [], true⟩).trace :=
  ⟨((c7_create_iff_absent ⟨true, ["idem_test"], true⟩ rfl).2.2 1 (by decide)).2,
   (c7_create_iff_absent ⟨true, [], true⟩ rfl).2.1 (by decide) rfl⟩

/-- Claim C3 (evaluation at the failing input): when the driver is absent,
the top-level `import psycopg2` at line 1 raises before the
`try`/`except ImportError` of `__main__` is ever entered, so the process
crashes with an unhandled `ImportError` and prints nothing — in particular
neither line of the install guidance is printed and the exit is not clean,
contradicting the claim. -/
theorem c3_missing_driver_crashes :
    (runModule false ⟨true, [], true⟩).outcome = Outcome.exception Exc.importError ∧
    (runModule false ⟨true, [], true⟩).trace = [] ∧
    Event.print installMsg1 ∉ (runModule false ⟨true, [], true⟩).trace ∧
    Event.print installMsg2 ∉ (runModule false ⟨true, [], true⟩).trace := by decide

/-- Claim C4: running the module (with the driver present) ends with
`sys.exit(1)` exactly when the administrative connection fails; in that case
the diagnostic tip is printed and no statement of any kind is ever sent; and
whenever `init_db` completes normally — including the benign case where the
target database already exists — the process exit status is 0. -/
theorem c4_exit_status (s : ServerState) :
    ((runModule true s).outcome = Outcome.sysExit 1 ↔ s.reachable = false) ∧
    (s.reachable = false →
        Event.print tipMsg ∈ (runModule true s).trace ∧
        ∀ sql : String, Event.execute sql ∉ (runModule true s).trace) ∧
    ((init_db s).outcome = Outcome.normalReturn →
        (runModule true s).outcome = Outcome.sysExit 0) := by
  rcases s with ⟨r, dbs, c⟩
  cases r
  · simp [runModule, mainBody, init_db]
  · by_cases hm : TARGET_DB ∈ dbs
    · simp [runModule, mainBody, init_db, existsQuery, hm]
    · cases c <;>
        simp [runModule, mainBody, init_db, existsQuery, createDatabase, hm]

/-- Witness for C4: an unreachable server exits with status 1 and sends
nothing; a server where the target already exists exits with status 0. -/
theorem c4_witness :
    Event.print tipMsg ∈ (runModule true ⟨false, [], true⟩).trace ∧
    (runModule true ⟨true, ["idem_test"], true⟩).outcome = Outcome.sysExit 0 :=
  ⟨((c4_exit_status ⟨false, [], true⟩).2.1 rfl).1,
   (c4_exit_status ⟨true, ["idem_test"], true⟩).2.2 (by decide)⟩

/-- Claim C8: a failure of the creation statement itself (here: the target
is absent but creation is not permitted) is caught nowhere — it propagates
out of `__main__` as an unhandled exception — and no operation is ever
retried: the connection, the existence query and the creation statement each
occur at most once in any trace. -/
theorem c8_unhandled_and_no_retry (s : ServerState) :
    (s.reachable = true → existsQuery s TARGET_DB = none →
        createDatabase s TARGET_DB = none →
        (runModule true s).outcome = Outcome.exception (Exc.dbError createFailText)) ∧
    countEv Event.connect (runModule true s).trace ≤ 1 ∧
    countEv (Event.execute existsSQL) (runModule true s).trace ≤ 1 ∧
    countEv (Event.execute createSQL) (runModule true s).trace ≤ 1 := by
  rcases s with ⟨r, dbs, c⟩
  cases r
  · simp [runModule, mainBody, init_db, countEv]
  · by_cases hm : TARGET_DB ∈ dbs
    · simp [runModule, mainBody, init_db, existsQuery, createDatabase, hm, countEv,
            create_ne_exists_sql, exists_ne_create_sql]
    · cases c <;>
        simp [runModule, mainBody, init_db, existsQuery, createDatabase, hm, countEv,
              create_ne_exists_sql, exists_ne_create_sql]

/-- Witness for C8: with the target absent and creation not permitted, the
module run ends in an unhandled database error. -/
theorem c8_witness :
    (runModule true ⟨true, [], false⟩).outcome =
      Outcome.exception (Exc.dbError createFailText) :=
  (c8_unhandled_and_no_retry ⟨true, [], false⟩).1 rfl (by decide) (by decide)

/-- Claim C9: every statement `init_db` sends is either the fixed catalog
existence query for the constant target name or the fixed
`CREATE DATABASE idem_test` statement, the latter at most once; both SQL
texts are the expected constants; and the existence of every database other
than the target is unchanged by the run. -/
theorem c9_frame (s : ServerState) :
    (∀ sql : String, Event.execute sql ∈ (init_db s).trace →
        sql = existsSQL ∨ sql = createSQL) ∧
    countEv (Event.execute createSQL) (init_db s).trace ≤ 1 ∧
    existsSQL =
      "SELECT 1 FROM pg_catalog.pg_database WHERE datname = \x27idem_test\x27" ∧
    createSQL = "CREATE DATABASE idem_test" ∧
    (∀ name : String, name ≠ TARGET_DB →
        (name ∈ (init_db s).server.dbs ↔ name ∈ s.dbs)) := by
  rcases s with ⟨r, dbs, c⟩
  refine ⟨?_, ?_, by decide, by decide, ?_⟩
  · cases r
    · simp [init_db]
    · by_cases hm : TARGET_DB ∈ dbs
      · simp [init_db, existsQuery, hm]
      · cases c <;> simp [init_db, existsQuery, createDatabase, hm]
  · cases r
    · simp [init_db, countEv]
    · by_cases hm : TARGET_DB ∈ dbs
      · simp [init_db, existsQuery, hm, countEv, exists_ne_create_sql]
      · cases c <;>
          simp [init_db, existsQuery, createDatabase, hm, countEv, exists_ne_create_sql]
  · intro name hname
    cases r
    · simp [init_db]
    · by_cases hm : TARGET_DB ∈ dbs
      · simp [init_db, existsQuery, hm]
      · cases c <;>
          simp [init_db, existsQuery, createDatabase, hm, List.mem_cons, hname]

/-- Witness for C9: a non-target database present before the run is still
present after it. -/
theorem c9_witness :
    "otherdb" ∈ (init_db ⟨true, ["otherdb"], true⟩).server.dbs ↔
      "otherdb" ∈ (⟨true, ["otherdb"], true⟩ : ServerState).dbs :=
  (c9_frame ⟨true, ["otherdb"], true⟩).2.2.2.2 "otherdb" (by decide)

/-- Claim C10: the module run is deterministic — two runs receiving
identical responses from the server (same connection outcome, same
existence-query result, same creation-statement outcome) perform the
identical sequence of actions, produce identical console output, and end
with the identical outcome. -/
theorem c10_deterministic (s1 s2 : ServerState)
    (hr : s1.reachable = s2.reachable)
    (he : existsQuery s1 TARGET_DB = existsQuery s2 TARGET_DB)
    (hc : s1.canCreate = s2.canCreate) :
    (runModule true s1).trace = (runModule true s2).trace ∧
    (runModule true s1).outcome = (runModule true s2).outcome := by
  rcases s1 with ⟨r1, d1, c1⟩
  rcases s2 with ⟨r2, d2, c2⟩
  simp only at hr hc
  subst hr hc
  cases r1
  · simp [runModule, mainBody, init_db]
  · by_cases hm1 : TARGET_DB ∈ d1 <;> by_cases hm2 : TARGET_DB ∈ d2
    · simp [runModule, mainBody, init_db, existsQuery, hm1, hm2]
    · simp [existsQuery, hm1, hm2] at he
    · simp [existsQuery, hm1, hm2] at he
    · cases c1 <;>
        simp [runModule, mainBody, init_db, existsQuery, createDatabase, hm1, hm2]

/-- Witness for C10: two servers differing in the non-target databases they
hold give the same responses and produce the same trace. -/
theorem c10_witness :
    (runModule true ⟨true, ["idem_test"], true⟩).trace =
      (runModule true ⟨true, ["idem_test", "otherdb"], true⟩).trace :=
  (c10_deterministic ⟨true, ["idem_test"], true⟩ ⟨true, ["idem_test", "otherdb"], true⟩
    rfl (by decide) rfl).1

end Idem
